import Mathlib

/-!
mongodb-backup-launcher: replica selection, placement resolution, job construction.

A shallow embedding of `internal/service/mongoDB.go`, `internal/service/k8s.go` and
`internal/service/service.go`.

* Go strings are `String`, Go `int` is `Int`, slices are `List`, `map[string]string`
  literals and label maps are association lists read with `List.lookup`.
* A Go `(value, error)` return is a pair whose last component is `Option GoError`
  (`none` is the `nil` error), so that the value returned next to an error is visible.
* The two injected clients are records of response functions. Every function of the
  service returns, next to its Go results, the list of external effects it performed,
  in program order.
-/

set_option autoImplicit false

namespace MongoBackup

/-! ## Errors -/

/-- Go `error` values as the service builds and receives them. `plain` is an error
without a wrapped cause (`errors.New`, `fmt.Errorf` without `%w`), `status` is an API
status error of the orchestration client (reason, HTTP code, message), and `wrapped`
is `fmt.Errorf` with `%w`: the full message and the wrapped cause. -/
inductive GoError where
  | plain (msg : String)
  | status (reason : String) (code : Nat) (msg : String)
  | wrapped (msg : String) (cause : GoError)
  deriving DecidableEq, Repr

namespace GoError

/-- The `Error()` method. -/
def Error : GoError → String
  | plain msg => msg
  | status _ _ msg => msg
  | wrapped msg _ => msg

/-- The `Unwrap()` method. -/
def Unwrap : GoError → Option GoError
  | wrapped _ cause => some cause
  | _ => none

/-- The API status found along the unwrap chain (`errors.As` on `APIStatus`). -/
def apiStatus : GoError → Option (String × Nat)
  | plain _ => none
  | status reason code _ => some (reason, code)
  | wrapped _ cause => apiStatus cause

end GoError

/-- `fmt.Errorf(format ++ ": %w", err)`: message `lead ++ err.Error()`, wrapping `err`. -/
def errorfW (lead : String) (err : GoError) : GoError :=
  GoError.wrapped (lead ++ err.Error) err

/-- `fmt.Errorf(format ++ ": %v", err)`: the message only, nothing wrapped. -/
def errorfV (lead : String) (err : GoError) : GoError :=
  GoError.plain (lead ++ err.Error)

/-- The status reasons `k8s.io/apimachinery/pkg/api/errors` knows. -/
def knownReasons : List String :=
  ["Unauthorized", "Forbidden", "NotFound", "AlreadyExists", "Conflict", "Gone",
   "Invalid", "ServerTimeout", "StorageReadError", "Timeout", "TooManyRequests",
   "BadRequest", "MethodNotAllowed", "NotAcceptable", "RequestEntityTooLarge",
   "UnsupportedMediaType", "InternalError", "Expired", "ServiceUnavailable"]

/-- `errors.IsNotFound(err)` of apimachinery: the reason is `NotFound`, or the reason is
not a known one and the code is 404. A `nil` error and an error without an API status
are not "not found". -/
def IsNotFound : Option GoError → Bool
  | none => false
  | some err =>
    match err.apiStatus with
    | none => false
    | some (reason, code) =>
      reason == "NotFound" || (!(knownReasons.contains reason) && code == 404)

/-! ## Replica-set status (mongoDB.go) -/

/-- `type member struct` -/
structure member where
  Name : String
  Role : String
  deriving DecidableEq, Repr

/-- `type replicaSetMembers struct` -/
structure replicaSetMembers where
  OK : Int
  Members : List member
  deriving DecidableEq, Repr

/-- The database command channel: the effect of
`db.RunCommand(ctx, replSetGetStatus).Decode(&rsMembers)` on the struct it is given,
and the error it returns. -/
structure MongoDBClient where
  RunCommandDecode : replicaSetMembers → replicaSetMembers × Option GoError

/-! ## Orchestration objects (k8s.go) -/

/-- `metav1.ObjectMeta`, the fields the service reads or writes. -/
structure ObjectMeta where
  Name : String := ""
  GenerateName : String := ""
  Namespace : String := ""
  Annotations : List (String × String) := []
  Labels : List (String × String) := []
  deriving DecidableEq, Repr

/-- `corev1.Toleration` -/
structure Toleration where
  Key : String
  Operator : String
  Value : String
  Effect : String
  deriving DecidableEq, Repr

/-- `corev1.NodeSelectorRequirement` -/
structure NodeSelectorRequirement where
  Key : String
  Operator : String
  Values : List String
  deriving DecidableEq, Repr

/-- `corev1.NodeSelectorTerm` -/
structure NodeSelectorTerm where
  MatchExpressions : List NodeSelectorRequirement
  deriving DecidableEq, Repr

/-- `corev1.NodeSelector` -/
structure NodeSelector where
  NodeSelectorTerms : List NodeSelectorTerm
  deriving DecidableEq, Repr

/-- `corev1.NodeAffinity`; the pointer field is an `Option`. -/
structure NodeAffinity where
  RequiredDuringSchedulingIgnoredDuringExecution : Option NodeSelector
  deriving DecidableEq, Repr

/-- `corev1.Affinity` -/
structure Affinity where
  NodeAffinity : Option NodeAffinity
  deriving DecidableEq, Repr

/-- `corev1.LocalObjectReference` -/
structure LocalObjectReference where
  Name : String
  deriving DecidableEq, Repr

/-- `corev1.ConfigMapEnvSource` -/
structure ConfigMapEnvSource where
  LocalObjectReference : LocalObjectReference
  deriving DecidableEq, Repr

/-- `corev1.EnvFromSource` -/
structure EnvFromSource where
  ConfigMapRef : Option ConfigMapEnvSource
  deriving DecidableEq, Repr

/-- `corev1.SecretKeySelector` -/
structure SecretKeySelector where
  LocalObjectReference : LocalObjectReference
  Key : String
  deriving DecidableEq, Repr

/-- `corev1.EnvVarSource` -/
structure EnvVarSource where
  SecretKeyRef : Option SecretKeySelector
  deriving DecidableEq, Repr

/-- `corev1.EnvVar` -/
structure EnvVar where
  Name : String
  Value : String := ""
  ValueFrom : Option EnvVarSource := none
  deriving DecidableEq, Repr

/-- `corev1.ResourceRequirements`; a quantity is kept as the text given to
`resource.MustParse`. -/
structure ResourceRequirements where
  Limits : List (String × String)
  Requests : List (String × String)
  deriving DecidableEq, Repr

/-- `corev1.VolumeMount` -/
structure VolumeMount where
  Name : String
  MountPath : String
  deriving DecidableEq, Repr

/-- `corev1.EmptyDirVolumeSource` -/
structure EmptyDirVolumeSource where
  Medium : String := ""
  SizeLimit : Option String := none
  deriving DecidableEq, Repr

/-- `corev1.VolumeSource`, the one source the service names. -/
structure VolumeSource where
  EmptyDir : Option EmptyDirVolumeSource
  deriving DecidableEq, Repr

/-- `corev1.Volume` -/
structure Volume where
  Name : String
  VolumeSource : VolumeSource
  deriving DecidableEq, Repr

/-- `corev1.Container` -/
structure Container where
  Name : String
  Image : String
  Command : List String
  EnvFrom : List EnvFromSource
  Env : List EnvVar
  Resources : ResourceRequirements
  VolumeMounts : List VolumeMount
  deriving DecidableEq, Repr

/-- `corev1.PodSpec` -/
structure PodSpec where
  NodeName : String := ""
  RestartPolicy : String := ""
  ServiceAccountName : String := ""
  Tolerations : List Toleration := []
  Affinity : Option Affinity := none
  Containers : List Container := []
  Volumes : List Volume := []
  deriving DecidableEq, Repr

/-- `corev1.Pod` -/
structure Pod where
  ObjectMeta : ObjectMeta
  Spec : PodSpec
  deriving DecidableEq, Repr

/-- `corev1.Node` -/
structure Node where
  ObjectMeta : ObjectMeta
  deriving DecidableEq, Repr

/-- `corev1.PodTemplateSpec` -/
structure PodTemplateSpec where
  ObjectMeta : ObjectMeta
  Spec : PodSpec
  deriving DecidableEq, Repr

/-- `batchv1.JobSpec` -/
structure JobSpec where
  TTLSecondsAfterFinished : Option Int
  BackoffLimit : Option Int
  Template : PodTemplateSpec
  deriving DecidableEq, Repr

/-- `batchv1.Job` -/
structure Job where
  ObjectMeta : ObjectMeta
  Spec : JobSpec
  deriving DecidableEq, Repr

/-- The orchestration API client, the three operations the service uses:
`CoreV1().Pods(namespace).Get(ctx, name, opts)`, `CoreV1().Nodes().Get(ctx, name, opts)`
and `BatchV1().Jobs(namespace).Create(ctx, job, opts)`. -/
structure K8sClient where
  PodsGet : String → String → Except GoError Pod
  NodesGet : String → Except GoError Node
  JobsCreate : String → Job → Except GoError Job

/-! ## Configuration and effects -/

/-- `config.Config`, with the two fields `createJob` reads from it (`Hostname`,
`BackupType`). -/
structure Config where
  MongoDBClient : MongoDBClient
  K8sClient : K8sClient
  ExcludeReplica : String
  LogLevel : String
  DockerImageURI : String
  Hostname : String
  BackupType : String

/-- `type Service struct` -/
structure Service where
  conf : Config

/-- What the service does to the outside, one constructor per call site kind. -/
inductive Effect where
  | runCommand (database : String) (command : String)
  | printf (text : String)
  | slogDebug (msg : String) (attrs : List (String × String))
  | podsGet (ns : String) (name : String)
  | nodesGet (name : String)
  | jobsCreate (ns : String) (job : Job)
  deriving DecidableEq, Repr

/-- An orchestration API call: a pod lookup, a node lookup or a job creation. -/
def Effect.isK8sCall : Effect → Bool
  | podsGet _ _ => true
  | nodesGet _ => true
  | jobsCreate _ _ => true
  | _ => false

/-- A job creation. -/
def Effect.isJobsCreate : Effect → Bool
  | jobsCreate _ _ => true
  | _ => false

/-! ## `json.MarshalIndent(rsMembers, "", "  ")` -/

/-- One hexadecimal digit, lower case. -/
def hexDigit (n : Nat) : Char :=
  if n < 10 then Char.ofNat (48 + n) else Char.ofNat (87 + n)

/-- The JSON escape of one character, as `encoding/json` writes it with HTML escaping
on: short forms for quote, backslash and the common control characters, `\u00xx` for
the other control characters and for `<`, `>`, `&`, and the escapes of U+2028 and
U+2029. -/
def jsonEscapeChar (c : Char) : List Char :=
  if c = '"' then ['\\', '"']
  else if c = '\\' then ['\\', '\\']
  else if c = '\n' then ['\\', 'n']
  else if c = '\r' then ['\\', 'r']
  else if c = '\t' then ['\\', 't']
  else if c.toNat < 32 ∨ c = '<' ∨ c = '>' ∨ c = '&' then
    ['\\', 'u', '0', '0', hexDigit (c.toNat / 16), hexDigit (c.toNat % 16)]
  else if c.toNat = 8232 then "\\u2028".data
  else if c.toNat = 8233 then "\\u2029".data
  else [c]

/-- A JSON string literal. -/
def jsonString (s : String) : String :=
  "\"" ++ String.mk (s.data.flatMap jsonEscapeChar) ++ "\""

/-- One member object at nesting depth two. The struct carries only `bson` tags, so
the JSON keys are the Go field names. -/
def jsonMember (m : member) : String :=
  "    \x7b\n      \"Name\": " ++ jsonString m.Name ++ ",\n      \"Role\": "
    ++ jsonString m.Role ++ "\n    \x7d"

/-- The members array. -/
def jsonMembers (ms : List member) : String :=
  match ms with
  | [] => "[]"
  | _ => "[\n" ++ ",\n".intercalate (ms.map jsonMember) ++ "\n  ]"

/-- `json.MarshalIndent(rsMembers, "", "  ")`. The value is a struct of an `int` and a
slice of structs of two strings, for which the encoder has no error case: the error
component is always `nil`. -/
def jsonMarshalIndent (rs : replicaSetMembers) : String × Option GoError :=
  ("\x7b\n  \"OK\": " ++ toString rs.OK ++ ",\n  \"Members\": " ++ jsonMembers rs.Members
    ++ "\n\x7d", none)

/-! ## Replica selection (mongoDB.go) -/

/-- The `for _, m := range rsMembers.Members` loop of `mongoDBReadReplicaToTarget`: the
value of `target` when the loop ends. `target` starts empty; a member that is not
`SECONDARY` is passed over, a `SECONDARY` member equal to a non-empty `ExcludeReplica`
is skipped (`continue`), and the first other `SECONDARY` member sets `target` and ends
the loop (`break`). -/
def selectTarget (excludeReplica : String) : List member → String
  | [] => ""
  | m :: ms =>
    if m.Role = "SECONDARY" then
      if excludeReplica ≠ "" ∧ excludeReplica = m.Name then
        selectTarget excludeReplica ms
      else
        m.Name
    else
      selectTarget excludeReplica ms

/-- The struct handed to `Decode`: `replicaSetMembers{Members: make([]member, 3)}`. -/
def initialReplicaSetMembers : replicaSetMembers :=
  { OK := 0, Members := List.replicate 3 { Name := "", Role := "" } }

/-- The command the selector issues. -/
def replSetGetStatusEffect : Effect :=
  Effect.runCommand "admin" "replSetGetStatus"

/-- `func (s *Service) mongoDBReadReplicaToTarget() (string, error)`, with the effects
performed. -/
def mongoDBReadReplicaToTarget (s : Service) : (String × Option GoError) × List Effect :=
  let decoded := s.conf.MongoDBClient.RunCommandDecode initialReplicaSetMembers
  let rsMembers := decoded.1
  match decoded.2 with
  | some err =>
    (("", some (errorfV "getting replica set status: " err)), [replSetGetStatusEffect])
  | none =>
    if rsMembers.OK ≠ 1 then
      (("", some (GoError.plain "database operation did not complete succesfully")),
        [replSetGetStatusEffect])
    else
      let marshalled := jsonMarshalIndent rsMembers
      match (if s.conf.LogLevel = "debug" then marshalled.2 else none) with
      | some err =>
        (("", some (errorfW "marshalling replica set payload: " err)),
          [replSetGetStatusEffect])
      | none =>
        let printed : List Effect :=
          if s.conf.LogLevel = "debug" then
            [Effect.printf ("Replica set members:\n" ++ marshalled.1 ++ "\n")]
          else []
        let target := selectTarget s.conf.ExcludeReplica rsMembers.Members
        if target = "" then
          (("", some (GoError.plain
            ("not found a SECONDARY replica set member which is not in the EXCLUDE_REPLICA env var. EXCLUDE_REPLICA = "
              ++ s.conf.ExcludeReplica))),
            replSetGetStatusEffect :: printed)
        else
          ((target, none),
            replSetGetStatusEffect :: (printed ++ [Effect.slogDebug "Target Host" [("host", target)]]))

/-! ## Placement resolution (k8s.go) -/

/-- `const azWellKnownLabel` -/
def azWellKnownLabel : String := "topology.kubernetes.io/zone"

/-- The segments of a character list between occurrences of `sep`; never empty. -/
def splitChars (sep : Char) : List Char → List (List Char)
  | [] => [[]]
  | c :: cs =>
    if c = sep then [] :: splitChars sep cs
    else
      match splitChars sep cs with
      | [] => [[c]]
      | seg :: rest => (c :: seg) :: rest

/-- `strings.Split(s, sep)` for a one-character separator, which is how the service
calls it (`"."`): the substrings between the separators, one more than there are
separators, so `[""]` for the empty string. -/
def stringsSplit (s : String) (sep : Char) : List String :=
  (splitChars sep s.data).map String.mk

/-- `func (s *Service) availabilityZoneToTarget(replicaHostPath string) (string, string, error)`,
with the effects performed. -/
def availabilityZoneToTarget (s : Service) (replicaHostPath : String) :
    (String × String × Option GoError) × List Effect :=
  let parts := stringsSplit replicaHostPath '.'
  if parts.length < 3 then
    (("", "", some (GoError.plain
      "expects the replica host name to be a K8s headless service and have at least 3 domain parts")),
      [])
  else
    let podName := parts.getD 0 ""
    let ns := parts.getD 2 ""
    let e1 : List Effect :=
      [Effect.slogDebug "Finding pod in namespace" [("pod", podName), ("namespace", ns)],
       Effect.podsGet ns podName]
    match s.conf.K8sClient.PodsGet ns podName with
    | Except.error err =>
      if IsNotFound (some err) then
        (("", "", some (errorfW
          ("unable to find pod " ++ podName ++ " in namespace " ++ ns ++ " based on hostname "
            ++ replicaHostPath ++ ": ") err)), e1)
      else
        (("", "", some (errorfW "finding pod: " err)), e1)
    | Except.ok pod =>
      let nodeName := pod.Spec.NodeName
      let e2 : List Effect :=
        e1 ++ [Effect.slogDebug "Pod is running on node" [("pod", podName), ("node", nodeName)],
               Effect.nodesGet nodeName]
      match s.conf.K8sClient.NodesGet nodeName with
      | Except.error err =>
        if IsNotFound (some err) then
          (("", "", some (errorfW ("unable to find node " ++ nodeName ++ ": ") err)), e2)
        else
          (("", "", some (errorfW "finding node: " err)), e2)
      | Except.ok node =>
        match node.ObjectMeta.Labels.lookup azWellKnownLabel with
        | none =>
          (("", "", some (GoError.plain
            ("unable to find AZ well known label '" ++ azWellKnownLabel ++ "' on node "
              ++ nodeName))), e2)
        | some az =>
          ((az, ns, none),
            e2 ++ [Effect.slogDebug "Target AZ" [("az", az)],
                   Effect.slogDebug "Target namespace" [("namespace", ns)]])

/-! ## Job construction (k8s.go) -/

/-- The `&batchv1.Job{...}` literal that `createJob` passes to `Create`. -/
def jobDescriptor (s : Service) (mongoDBHost az ns : String) : Job :=
  { ObjectMeta :=
      { GenerateName := "targeted-mongodb-backups-"
        Namespace := ns
        Annotations := [("created-by", s.conf.Hostname)]
        Labels := [("backup-type", s.conf.BackupType), ("app", "mongodb-backups")] }
    Spec :=
      { TTLSecondsAfterFinished := some 900
        BackoffLimit := some 3
        Template :=
          { ObjectMeta :=
              { Annotations := [("karpenter.sh/do-not-disrupt", "true")]
                Labels := [("backup-type", s.conf.BackupType), ("app", "mongodb-backups")] }
            Spec :=
              { RestartPolicy := "Never"
                ServiceAccountName := "backups"
                Tolerations :=
                  [{ Key := "mongodb-backups", Operator := "Equal", Value := "true",
                     Effect := "NoSchedule" }]
                Affinity := some
                  { NodeAffinity := some
                      { RequiredDuringSchedulingIgnoredDuringExecution := some
                          { NodeSelectorTerms :=
                              [{ MatchExpressions :=
                                  [{ Key := "topology.kubernetes.io/zone", Operator := "In",
                                     Values := [az] },
                                   { Key := "karpenter.sh/nodepool", Operator := "In",
                                     Values := ["backups"] }] }] } } }
                Containers :=
                  [{ Name := "app"
                     Image := s.conf.DockerImageURI
                     Command := ["/usr/local/bin/mongodump_k8s.sh", s.conf.BackupType]
                     EnvFrom :=
                       [{ ConfigMapRef := some { LocalObjectReference := { Name := "backups" } } }]
                     Env :=
                       [{ Name := "MONGO_INITDB_ROOT_USERNAME"
                          ValueFrom := some
                            { SecretKeyRef := some
                                { LocalObjectReference := { Name := "mongodb" }, Key := "username" } } },
                        { Name := "MONGO_INITDB_ROOT_PASSWORD"
                          ValueFrom := some
                            { SecretKeyRef := some
                                { LocalObjectReference := { Name := "mongodb" }, Key := "password" } } },
                        { Name := "MONGO_HOSTLIST", Value := mongoDBHost }]
                     Resources :=
                       { Limits := [("memory", "1Gi")]
                         Requests := [("memory", "1Gi"), ("cpu", "2")] }
                     VolumeMounts := [{ Name := "instance-storage", MountPath := "/backups" }] }]
                Volumes :=
                  [{ Name := "instance-storage", VolumeSource := { EmptyDir := none } }] } } } }

/-- `func (s *Service) createJob(mongoDBHost, az, namespace string) (*batchv1.Job, error)`,
with the effects performed; the `*batchv1.Job` is `none` for `nil`. -/
def createJob (s : Service) (mongoDBHost az ns : String) :
    (Option Job × Option GoError) × List Effect :=
  let submitted := jobDescriptor s mongoDBHost az ns
  match s.conf.K8sClient.JobsCreate ns submitted with
  | Except.error err =>
    ((none, some (errorfW "creating K8s jobs client: " err)), [Effect.jobsCreate ns submitted])
  | Except.ok job =>
    ((some job, none),
      [Effect.jobsCreate ns submitted, Effect.slogDebug "Job created" [("Job", job.ObjectMeta.Name)]])

/-! ## The pipeline (service.go) -/

/-- `func (s *Service) Run() error`, with the effects performed. -/
def Run (s : Service) : Option GoError × List Effect :=
  let r1 := mongoDBReadReplicaToTarget s
  match r1.1.2 with
  | some err =>
    (some (errorfW "finding which secondary MongoDB replica to target: " err), r1.2)
  | none =>
    let targetHost := r1.1.1
    let r2 := availabilityZoneToTarget s targetHost
    match r2.1.2.2 with
    | some err =>
      (some (errorfW "finding which availabilty zone to target: " err), r1.2 ++ r2.2)
    | none =>
      let targetAZ := r2.1.1
      let targetNamespace := r2.1.2.1
      let r3 := createJob s targetHost targetAZ targetNamespace
      match r3.1.2 with
      | some err => (some (errorfW "creating job: " err), r1.2 ++ r2.2 ++ r3.2)
      | none => (none, r1.2 ++ r2.2 ++ r3.2)

/-! ## Test doubles (mongoDB_test.go, k8s_test.go) -/

/-- The mocked command channel of `Test_mongoDBReadReplicaToTarget`: `Decode` writes
`ok` and `members` into the struct and returns `decodeError`. -/
def mockMongoClient (ok : Int) (members : List member) (decodeError : Option GoError) :
    MongoDBClient :=
  { RunCommandDecode := fun rs => ({ rs with OK := ok, Members := members }, decodeError) }

/-- The object tracker behind `fake.NewClientset(objects...)`: a lookup answers with the
stored object or with a `NotFound` status error, and a created job is returned as
submitted. -/
def fakeClientset (pods : List Pod) (nodes : List Node) : K8sClient :=
  { PodsGet := fun ns name =>
      match pods.find? (fun p => p.ObjectMeta.Namespace = ns ∧ p.ObjectMeta.Name = name) with
      | some p => Except.ok p
      | none => Except.error (GoError.status "NotFound" 404 ("pods \"" ++ name ++ "\" not found"))
    NodesGet := fun name =>
      match nodes.find? (fun n => n.ObjectMeta.Name = name) with
      | some n => Except.ok n
      | none => Except.error (GoError.status "NotFound" 404 ("nodes \"" ++ name ++ "\" not found"))
    JobsCreate := fun _ job => Except.ok job }

/-- A pod of the test cluster. -/
def testPod (name ns nodeName : String) : Pod :=
  { ObjectMeta := { Name := name, Namespace := ns }, Spec := { NodeName := nodeName } }

/-- The cluster of `Test_availabilityZoneToTarget`: three pods in `database`, a node
with the zone label and a node without it; `missing-node` is not stored. -/
def testCluster : K8sClient :=
  fakeClientset
    [testPod "mongodb-0" "database" "node1",
     testPod "mongodb-1" "database" "no-az-label",
     testPod "mongodb-2" "database" "missing-node"]
    [{ ObjectMeta := { Name := "node1", Labels := [("topology.kubernetes.io/zone", "eu-west-1a")] } },
     { ObjectMeta := { Name := "no-az-label" } }]

/-- A service over the given clients, the other settings as the tests leave them. -/
def testService (mongo : MongoDBClient) (k8s : K8sClient) (excludeReplica logLevel : String) :
    Service :=
  { conf :=
      { MongoDBClient := mongo, K8sClient := k8s, ExcludeReplica := excludeReplica,
        LogLevel := logLevel, DockerImageURI := "", Hostname := "", BackupType := "" } }

/-- The member list of the test table. -/
def testMembers : List member :=
  [{ Name := "mongodb-0.mongodb.database.svc.cluster.local", Role := "PRIMARY" },
   { Name := "mongodb-1.mongodb.database.svc.cluster.local", Role := "SECONDARY" },
   { Name := "mongodb-2.mongodb.database.svc.cluster.local", Role := "SECONDARY" }]

/-- A decoded status whose only member is a `SECONDARY` with an empty name. -/
def emptyNameMembers : List member :=
  [{ Name := "", Role := "SECONDARY" }]

/-- A decoded status with an empty-named `SECONDARY` ahead of a named one. -/
def emptyNameFirstMembers : List member :=
  [{ Name := "", Role := "SECONDARY" },
   { Name := "mongodb-2.mongodb.database.svc.cluster.local", Role := "SECONDARY" }]

/-- The selector over a successfully decoded status with the given flag and members. -/
def selectorService (ok : Int) (members : List member) (excludeReplica logLevel : String) :
    Service :=
  testService (mockMongoClient ok members none) testCluster excludeReplica logLevel

/-- The service with `conf.ExcludeReplica` set to `x`, everything else kept: the same
clients, log level and image. -/
def withExcludeReplica (s : Service) (x : String) : Service :=
  { conf := { s.conf with ExcludeReplica := x } }

/-- The test cluster with the zone label of `node1` present and empty. -/
def emptyZoneCluster : K8sClient :=
  fakeClientset
    [testPod "mongodb-0" "database" "node1"]
    [{ ObjectMeta := { Name := "node1", Labels := [("topology.kubernetes.io/zone", "")] } }]

/-! ## Replica selection: lemmas on the loop -/

/-- A member that is not `SECONDARY` is passed over. -/
theorem selectTarget_cons_other (excl : String) (x : member) (ms : List member)
    (hx : x.Role ≠ "SECONDARY") :
    selectTarget excl (x :: ms) = selectTarget excl ms := by
  rw [selectTarget, if_neg hx]

/-- A `SECONDARY` member equal to a non-empty exclusion is skipped. -/
theorem selectTarget_cons_skip (excl : String) (x : member) (ms : List member)
    (hx : x.Role = "SECONDARY") (hskip : excl ≠ "" ∧ excl = x.Name) :
    selectTarget excl (x :: ms) = selectTarget excl ms := by
  rw [selectTarget, if_pos hx, if_pos hskip]

/-- A `SECONDARY` member that is not skipped ends the loop with its name. -/
theorem selectTarget_cons_pick (excl : String) (x : member) (ms : List member)
    (hx : x.Role = "SECONDARY") (hskip : ¬ (excl ≠ "" ∧ excl = x.Name)) :
    selectTarget excl (x :: ms) = x.Name := by
  rw [selectTarget, if_pos hx, if_neg hskip]

/-- The loop passes over a prefix that holds no `SECONDARY` member with a name other
than the excluded one and no `SECONDARY` member with an empty name, and stops at the
`SECONDARY` member behind it whose name is not the excluded one. -/
theorem selectTarget_append (excl : String) (pre post : List member) (m : member)
    (hpre : ∀ x ∈ pre, ¬ (x.Role = "SECONDARY" ∧ x.Name ≠ excl))
    (hm : m.Role = "SECONDARY" ∧ m.Name ≠ excl)
    (hne : ∀ x ∈ pre, x.Role = "SECONDARY" → x.Name ≠ "") :
    selectTarget excl (pre ++ m :: post) = m.Name := by
  induction pre with
  | nil =>
    exact selectTarget_cons_pick excl m post hm.1 (fun h => hm.2 h.2.symm)
  | cons x xs ih =>
    have ih2 := ih (fun y hy => hpre y (List.mem_cons_of_mem _ hy))
      (fun y hy => hne y (List.mem_cons_of_mem _ hy))
    rw [List.cons_append]
    by_cases hx : x.Role = "SECONDARY"
    · have hname : x.Name = excl := by
        by_contra hc
        exact hpre x (List.mem_cons_self _ _) ⟨hx, hc⟩
      have hnonempty : x.Name ≠ "" := hne x (List.mem_cons_self _ _) hx
      rw [selectTarget_cons_skip excl x _ hx ⟨hname ▸ hnonempty, hname.symm⟩]
      exact ih2
    · rw [selectTarget_cons_other excl x _ hx]
      exact ih2

/-- The loop leaves `target` empty when no member is `SECONDARY` with a name other than
the excluded one. -/
theorem selectTarget_none (excl : String) (ms : List member)
    (hnone : ∀ x ∈ ms, ¬ (x.Role = "SECONDARY" ∧ x.Name ≠ excl)) :
    selectTarget excl ms = "" := by
  induction ms with
  | nil => rfl
  | cons x xs ih =>
    have ih2 := ih (fun y hy => hnone y (List.mem_cons_of_mem _ hy))
    by_cases hx : x.Role = "SECONDARY"
    · have hname : x.Name = excl := by
        by_contra hc
        exact hnone x (List.mem_cons_self _ _) ⟨hx, hc⟩
      by_cases he : excl = ""
      · rw [selectTarget_cons_pick excl x xs hx (fun h => h.1 he), hname, he]
      · rw [selectTarget_cons_skip excl x xs hx ⟨he, hname.symm⟩]
        exact ih2
    · rw [selectTarget_cons_other excl x xs hx]
      exact ih2

/-- With a successful decode and success flag 1, the Go results are decided by the
loop alone: the log level only adds output. -/
theorem mongoDBReadReplicaToTarget_ok (s : Service) (rs : replicaSetMembers)
    (hdec : s.conf.MongoDBClient.RunCommandDecode initialReplicaSetMembers = (rs, none))
    (hok : rs.OK = 1) :
    (mongoDBReadReplicaToTarget s).1 =
      if selectTarget s.conf.ExcludeReplica rs.Members = "" then
        ("", some (GoError.plain
          ("not found a SECONDARY replica set member which is not in the EXCLUDE_REPLICA env var. EXCLUDE_REPLICA = "
            ++ s.conf.ExcludeReplica)))
      else (selectTarget s.conf.ExcludeReplica rs.Members, none) := by
  unfold mongoDBReadReplicaToTarget
  simp only [hdec, hok, jsonMarshalIndent]
  by_cases hl : s.conf.LogLevel = "debug" <;>
    by_cases ht : selectTarget s.conf.ExcludeReplica rs.Members = "" <;>
    simp [hl, ht]

/-! ## Replica selection: the claims -/

/-- C1, as stated, fails on a `SECONDARY` member with an empty name. With exclusion
`mongodb-1...` the only member is `SECONDARY` with a name other than the exclusion, and
the selector fails instead of returning it. With the empty exclusion and an empty-named
`SECONDARY` ahead of `mongodb-2...`, the first `SECONDARY` whose name differs from the
exclusion is `mongodb-2...`, and the selector fails as well: the loop stops at the
empty-named member, and an empty `target` is the not-found mark. -/
theorem mongoDBReadReplicaToTarget_empty_name_counterexample :
    ((∃ m ∈ emptyNameMembers,
        m.Role = "SECONDARY" ∧ m.Name ≠ "mongodb-1.mongodb.database.svc.cluster.local") ∧
      (mongoDBReadReplicaToTarget
        (selectorService 1 emptyNameMembers "mongodb-1.mongodb.database.svc.cluster.local" "")).1
        = ("", some (GoError.plain
            "not found a SECONDARY replica set member which is not in the EXCLUDE_REPLICA env var. EXCLUDE_REPLICA = mongodb-1.mongodb.database.svc.cluster.local")))
    ∧ ((∃ m ∈ emptyNameFirstMembers, m.Role = "SECONDARY" ∧ m.Name ≠ "") ∧
      (mongoDBReadReplicaToTarget (selectorService 1 emptyNameFirstMembers "" "")).1
        = ("", some (GoError.plain
            "not found a SECONDARY replica set member which is not in the EXCLUDE_REPLICA env var. EXCLUDE_REPLICA = "))) := by
  decide

/-- C1 (amended): for a decoded status with success flag 1 and any excluded-replica
identifier (the empty one included), if the member list holds a member whose role is
`SECONDARY` and whose name is not the excluded identifier, and no `SECONDARY` member up
to and including the first such member has an empty name, then
`mongoDBReadReplicaToTarget` succeeds and returns the name of the first such member in
list order. The list is written `pre ++ m :: post` with no such member in `pre`. -/
theorem mongoDBReadReplicaToTarget_returns_first_eligible (s : Service)
    (rs : replicaSetMembers) (pre post : List member) (m : member)
    (hdec : s.conf.MongoDBClient.RunCommandDecode initialReplicaSetMembers = (rs, none))
    (hok : rs.OK = 1)
    (hsplit : rs.Members = pre ++ m :: post)
    (hpre : ∀ x ∈ pre, ¬ (x.Role = "SECONDARY" ∧ x.Name ≠ s.conf.ExcludeReplica))
    (hm : m.Role = "SECONDARY" ∧ m.Name ≠ s.conf.ExcludeReplica)
    (hne : ∀ x ∈ pre ++ [m], x.Role = "SECONDARY" → x.Name ≠ "") :
    (mongoDBReadReplicaToTarget s).1 = (m.Name, none) := by
  have hsel : selectTarget s.conf.ExcludeReplica rs.Members = m.Name := by
    rw [hsplit]
    exact selectTarget_append _ pre post m hpre hm
      (fun x hx => hne x (List.mem_append_left _ hx))
  have hmne : m.Name ≠ "" := hne m (List.mem_append_right _ (List.mem_singleton_self m)) hm.1
  rw [mongoDBReadReplicaToTarget_ok s rs hdec hok, hsel, if_neg hmne]

/-- C1 at the test case `GoodWithExcludeReplica`: `mongodb-1...` is excluded and
`mongodb-2...` is returned. -/
theorem mongoDBReadReplicaToTarget_returns_first_eligible_witness :
    (mongoDBReadReplicaToTarget
      (selectorService 1 testMembers "mongodb-1.mongodb.database.svc.cluster.local" "debug")).1
      = ("mongodb-2.mongodb.database.svc.cluster.local", none) :=
  mongoDBReadReplicaToTarget_returns_first_eligible
    (selectorService 1 testMembers "mongodb-1.mongodb.database.svc.cluster.local" "debug")
    { OK := 1, Members := testMembers }
    [{ Name := "mongodb-0.mongodb.database.svc.cluster.local", Role := "PRIMARY" },
     { Name := "mongodb-1.mongodb.database.svc.cluster.local", Role := "SECONDARY" }]
    []
    { Name := "mongodb-2.mongodb.database.svc.cluster.local", Role := "SECONDARY" }
    (by rfl) (by rfl) (by rfl) (by decide) (by decide) (by decide)

/-- C2: for a decoded status with success flag 1, if no member has role `SECONDARY`
with a name other than the excluded-replica identifier (so also for a list without
`SECONDARY` members and for the empty list), `mongoDBReadReplicaToTarget` fails with
the no-eligible-replica error and returns the empty string as target. -/
theorem mongoDBReadReplicaToTarget_fails_without_eligible (s : Service)
    (rs : replicaSetMembers)
    (hdec : s.conf.MongoDBClient.RunCommandDecode initialReplicaSetMembers = (rs, none))
    (hok : rs.OK = 1)
    (hnone : ∀ x ∈ rs.Members, ¬ (x.Role = "SECONDARY" ∧ x.Name ≠ s.conf.ExcludeReplica)) :
    (mongoDBReadReplicaToTarget s).1 =
      ("", some (GoError.plain
        ("not found a SECONDARY replica set member which is not in the EXCLUDE_REPLICA env var. EXCLUDE_REPLICA = "
          ++ s.conf.ExcludeReplica))) := by
  rw [mongoDBReadReplicaToTarget_ok s rs hdec hok,
    selectTarget_none _ rs.Members hnone, if_pos rfl]

/-- C2 at a status whose only `SECONDARY` member is the excluded one. -/
theorem mongoDBReadReplicaToTarget_fails_without_eligible_witness :
    (mongoDBReadReplicaToTarget
      (selectorService 1
        [{ Name := "mongodb-0.mongodb.database.svc.cluster.local", Role := "PRIMARY" },
         { Name := "mongodb-1.mongodb.database.svc.cluster.local", Role := "SECONDARY" }]
        "mongodb-1.mongodb.database.svc.cluster.local" "")).1
      = ("", some (GoError.plain
          ("not found a SECONDARY replica set member which is not in the EXCLUDE_REPLICA env var. EXCLUDE_REPLICA = "
            ++ "mongodb-1.mongodb.database.svc.cluster.local"))) :=
  mongoDBReadReplicaToTarget_fails_without_eligible
    (selectorService 1
      [{ Name := "mongodb-0.mongodb.database.svc.cluster.local", Role := "PRIMARY" },
       { Name := "mongodb-1.mongodb.database.svc.cluster.local", Role := "SECONDARY" }]
      "mongodb-1.mongodb.database.svc.cluster.local" "")
    { OK := 1,
      Members :=
        [{ Name := "mongodb-0.mongodb.database.svc.cluster.local", Role := "PRIMARY" },
         { Name := "mongodb-1.mongodb.database.svc.cluster.local", Role := "SECONDARY" }] }
    (by rfl) (by rfl) (by decide)

/-- C3: for a decoded status whose success flag is not 1, `mongoDBReadReplicaToTarget`
fails with the status-not-OK error and an empty target, whatever the member list, the
excluded-replica identifier and the log level are; the only effect is the status
command. -/
theorem mongoDBReadReplicaToTarget_fails_when_not_ok (s : Service)
    (rs : replicaSetMembers)
    (hdec : s.conf.MongoDBClient.RunCommandDecode initialReplicaSetMembers = (rs, none))
    (hok : rs.OK ≠ 1) :
    mongoDBReadReplicaToTarget s =
      (("", some (GoError.plain "database operation did not complete succesfully")),
        [replSetGetStatusEffect]) := by
  unfold mongoDBReadReplicaToTarget
  simp only [hdec]
  rw [if_pos hok]

/-- C3 at a status with flag 0 whose list holds eligible `SECONDARY` members, with
debug logging on. -/
theorem mongoDBReadReplicaToTarget_fails_when_not_ok_witness :
    mongoDBReadReplicaToTarget (selectorService 0 testMembers "" "debug") =
      (("", some (GoError.plain "database operation did not complete succesfully")),
        [replSetGetStatusEffect]) :=
  mongoDBReadReplicaToTarget_fails_when_not_ok (selectorService 0 testMembers "" "debug")
    { OK := 0, Members := testMembers } (by rfl) (by decide)

/-- The loop does the same with an exclusion that names no member as with the empty
exclusion: the `continue` test never holds in either run. -/
theorem selectTarget_absent_exclusion (x : String) (ms : List member)
    (habsent : ∀ m ∈ ms, m.Name ≠ x) :
    selectTarget x ms = selectTarget "" ms := by
  induction ms with
  | nil => rfl
  | cons m rest ih =>
    have ih2 := ih (fun y hy => habsent y (List.mem_cons_of_mem _ hy))
    have hm : m.Name ≠ x := habsent m (List.mem_cons_self _ _)
    by_cases hrole : m.Role = "SECONDARY"
    · rw [selectTarget_cons_pick x m rest hrole (fun h => hm h.2.symm),
        selectTarget_cons_pick "" m rest hrole (fun h => h.1 rfl)]
    · rw [selectTarget_cons_other x m rest hrole, selectTarget_cons_other "" m rest hrole]
      exact ih2

/-- C11: for every decoded replica-set status (whatever its success flag) and every
excluded-replica identifier `x` that is not the name of any member in the list,
`mongoDBReadReplicaToTarget` with exclusion `x` returns the same target as with the
empty exclusion, and returns an error exactly when the run with the empty exclusion
does. -/
theorem mongoDBReadReplicaToTarget_absent_exclusion_same_outcome (s : Service)
    (rs : replicaSetMembers) (x : String)
    (hdec : s.conf.MongoDBClient.RunCommandDecode initialReplicaSetMembers = (rs, none))
    (habsent : ∀ m ∈ rs.Members, m.Name ≠ x) :
    (mongoDBReadReplicaToTarget (withExcludeReplica s x)).1.1 =
        (mongoDBReadReplicaToTarget (withExcludeReplica s "")).1.1 ∧
      ((mongoDBReadReplicaToTarget (withExcludeReplica s x)).1.2 = none ↔
        (mongoDBReadReplicaToTarget (withExcludeReplica s "")).1.2 = none) := by
  have hdecx : (withExcludeReplica s x).conf.MongoDBClient.RunCommandDecode
      initialReplicaSetMembers = (rs, none) := hdec
  have hdec0 : (withExcludeReplica s "").conf.MongoDBClient.RunCommandDecode
      initialReplicaSetMembers = (rs, none) := hdec
  by_cases hok : rs.OK = 1
  · have hsel : selectTarget (withExcludeReplica s x).conf.ExcludeReplica rs.Members =
        selectTarget (withExcludeReplica s "").conf.ExcludeReplica rs.Members :=
      selectTarget_absent_exclusion x rs.Members habsent
    rw [mongoDBReadReplicaToTarget_ok _ rs hdecx hok,
      mongoDBReadReplicaToTarget_ok _ rs hdec0 hok, hsel]
    by_cases ht : selectTarget (withExcludeReplica s "").conf.ExcludeReplica rs.Members = ""
    · rw [if_pos ht, if_pos ht]
      simp
    · rw [if_neg ht, if_neg ht]
      simp
  · have hx : mongoDBReadReplicaToTarget (withExcludeReplica s x) =
        (("", some (GoError.plain "database operation did not complete succesfully")),
          [replSetGetStatusEffect]) := by
      unfold mongoDBReadReplicaToTarget
      simp only [hdecx]
      rw [if_pos hok]
    have h0 : mongoDBReadReplicaToTarget (withExcludeReplica s "") =
        (("", some (GoError.plain "database operation did not complete succesfully")),
          [replSetGetStatusEffect]) := by
      unfold mongoDBReadReplicaToTarget
      simp only [hdec0]
      rw [if_pos hok]
    rw [hx, h0]
    simp

/-- C11 at the test member list: excluding `mongodb-9...`, which names no member, gives
the target of the run without exclusion, and both runs succeed or fail together. -/
theorem mongoDBReadReplicaToTarget_absent_exclusion_same_outcome_witness :
    (mongoDBReadReplicaToTarget
        (withExcludeReplica (selectorService 1 testMembers "" "")
          "mongodb-9.mongodb.database.svc.cluster.local")).1.1 =
        (mongoDBReadReplicaToTarget
          (withExcludeReplica (selectorService 1 testMembers "" "") "")).1.1 ∧
      ((mongoDBReadReplicaToTarget
          (withExcludeReplica (selectorService 1 testMembers "" "")
            "mongodb-9.mongodb.database.svc.cluster.local")).1.2 = none ↔
        (mongoDBReadReplicaToTarget
          (withExcludeReplica (selectorService 1 testMembers "" "") "")).1.2 = none) :=
  mongoDBReadReplicaToTarget_absent_exclusion_same_outcome
    (selectorService 1 testMembers "" "") { OK := 1, Members := testMembers }
    "mongodb-9.mongodb.database.svc.cluster.local" (by rfl) (by decide)

/-! ## Placement resolution: the claims -/

/-- The results and effects of `availabilityZoneToTarget` on an address with at least
three segments, as the two lookups and the label read decide them. -/
theorem availabilityZoneToTarget_of_segments (s : Service) (replicaHostPath : String)
    (seg0 seg1 seg2 : String) (rest : List String)
    (hparts : stringsSplit replicaHostPath '.' = seg0 :: seg1 :: seg2 :: rest) :
    availabilityZoneToTarget s replicaHostPath =
      (let e1 : List Effect :=
        [Effect.slogDebug "Finding pod in namespace" [("pod", seg0), ("namespace", seg2)],
         Effect.podsGet seg2 seg0]
      match s.conf.K8sClient.PodsGet seg2 seg0 with
      | Except.error err =>
        if IsNotFound (some err) then
          (("", "", some (errorfW
            ("unable to find pod " ++ seg0 ++ " in namespace " ++ seg2 ++ " based on hostname "
              ++ replicaHostPath ++ ": ") err)), e1)
        else
          (("", "", some (errorfW "finding pod: " err)), e1)
      | Except.ok pod =>
        let e2 : List Effect :=
          e1 ++ [Effect.slogDebug "Pod is running on node"
                   [("pod", seg0), ("node", pod.Spec.NodeName)],
                 Effect.nodesGet pod.Spec.NodeName]
        match s.conf.K8sClient.NodesGet pod.Spec.NodeName with
        | Except.error err =>
          if IsNotFound (some err) then
            (("", "", some (errorfW ("unable to find node " ++ pod.Spec.NodeName ++ ": ") err)),
              e2)
          else
            (("", "", some (errorfW "finding node: " err)), e2)
        | Except.ok node =>
          match node.ObjectMeta.Labels.lookup azWellKnownLabel with
          | none =>
            (("", "", some (GoError.plain
              ("unable to find AZ well known label '" ++ azWellKnownLabel ++ "' on node "
                ++ pod.Spec.NodeName))), e2)
          | some az =>
            ((az, seg2, none),
              e2 ++ [Effect.slogDebug "Target AZ" [("az", az)],
                     Effect.slogDebug "Target namespace" [("namespace", seg2)]])) := by
  unfold availabilityZoneToTarget
  simp only [hparts]
  rw [if_neg (by simp)]
  rfl

/-- An address with fewer than 3 segments is refused before anything is done. -/
theorem availabilityZoneToTarget_short_address (s : Service) (replicaHostPath : String)
    (hshort : (stringsSplit replicaHostPath '.').length < 3) :
    availabilityZoneToTarget s replicaHostPath =
      (("", "", some (GoError.plain
        "expects the replica host name to be a K8s headless service and have at least 3 domain parts")),
        []) := by
  unfold availabilityZoneToTarget
  simp only []
  rw [if_pos hshort]

/-- C4: for every replica address that splits on `.` into fewer than 3 segments,
`availabilityZoneToTarget` fails with the malformed-address error, returns empty zone
and namespace, and performs no effect at all before failing: no pod lookup and no node
lookup. -/
theorem availabilityZoneToTarget_malformed_address (s : Service) (replicaHostPath : String)
    (hshort : (stringsSplit replicaHostPath '.').length < 3) :
    availabilityZoneToTarget s replicaHostPath =
      (("", "", some (GoError.plain
        "expects the replica host name to be a K8s headless service and have at least 3 domain parts")),
        []) :=
  availabilityZoneToTarget_short_address s replicaHostPath hshort

/-- C4 at the two-segment address of the test, `mongodb-1.mongodb`. -/
theorem availabilityZoneToTarget_malformed_address_witness :
    availabilityZoneToTarget (selectorService 1 testMembers "" "") "mongodb-1.mongodb" =
      (("", "", some (GoError.plain
        "expects the replica host name to be a K8s headless service and have at least 3 domain parts")),
        []) :=
  availabilityZoneToTarget_malformed_address (selectorService 1 testMembers "" "")
    "mongodb-1.mongodb" (by decide)

/-- C5: for every replica address with at least 3 segments `seg0.seg1.seg2...` and every
cluster in which the lookup of pod `seg0` in namespace `seg2` succeeds, the lookup of the
node the pod is scheduled on succeeds, and that node carries the label
`topology.kubernetes.io/zone` with value `z`, `availabilityZoneToTarget` succeeds and
returns zone `z` and namespace `seg2`: the namespace is the address segment,
whatever namespace the looked-up pod and node record. -/
theorem availabilityZoneToTarget_resolves (s : Service) (replicaHostPath : String)
    (seg0 seg1 seg2 : String) (rest : List String) (pod : Pod) (node : Node) (z : String)
    (hparts : stringsSplit replicaHostPath '.' = seg0 :: seg1 :: seg2 :: rest)
    (hpod : s.conf.K8sClient.PodsGet seg2 seg0 = Except.ok pod)
    (hnode : s.conf.K8sClient.NodesGet pod.Spec.NodeName = Except.ok node)
    (hlabel : node.ObjectMeta.Labels.lookup azWellKnownLabel = some z) :
    (availabilityZoneToTarget s replicaHostPath).1 = (z, seg2, none) := by
  rw [availabilityZoneToTarget_of_segments s replicaHostPath seg0 seg1 seg2 rest hparts]
  simp only [hpod, hnode, hlabel]

/-- C5 at end-to-end scenario 3: pod `mongodb-0` in `database` on `node1`, labelled
`eu-west-1a`. -/
theorem availabilityZoneToTarget_resolves_witness :
    (availabilityZoneToTarget (selectorService 1 testMembers "" "")
      "mongodb-0.mongodb.database.svc.cluster.local").1 = ("eu-west-1a", "database", none) :=
  availabilityZoneToTarget_resolves (selectorService 1 testMembers "" "")
    "mongodb-0.mongodb.database.svc.cluster.local"
    "mongodb-0" "mongodb" "database" ["svc", "cluster", "local"]
    (testPod "mongodb-0" "database" "node1")
    { ObjectMeta := { Name := "node1", Labels := [("topology.kubernetes.io/zone", "eu-west-1a")] } }
    "eu-west-1a" (by decide) (by rfl) (by rfl) (by decide)

/-- C6: for every replica address with at least 3 segments and every cluster in which the
pod lookup and the node lookup both succeed but the node's labels hold no entry for
`topology.kubernetes.io/zone`, `availabilityZoneToTarget` fails with the
zone-label-missing error and returns empty zone and namespace. -/
theorem availabilityZoneToTarget_zone_label_missing (s : Service) (replicaHostPath : String)
    (seg0 seg1 seg2 : String) (rest : List String) (pod : Pod) (node : Node)
    (hparts : stringsSplit replicaHostPath '.' = seg0 :: seg1 :: seg2 :: rest)
    (hpod : s.conf.K8sClient.PodsGet seg2 seg0 = Except.ok pod)
    (hnode : s.conf.K8sClient.NodesGet pod.Spec.NodeName = Except.ok node)
    (hlabel : ∀ v, (azWellKnownLabel, v) ∉ node.ObjectMeta.Labels) :
    (availabilityZoneToTarget s replicaHostPath).1 =
      ("", "", some (GoError.plain
        ("unable to find AZ well known label 'topology.kubernetes.io/zone' on node "
          ++ pod.Spec.NodeName))) := by
  have hlookup : node.ObjectMeta.Labels.lookup azWellKnownLabel = none := by
    rw [List.lookup_eq_none_iff]
    intro p hp
    by_contra hkey
    have hk : azWellKnownLabel = p.1 := by simpa using hkey
    exact hlabel p.2 (by rw [hk]; exact hp)
  rw [availabilityZoneToTarget_of_segments s replicaHostPath seg0 seg1 seg2 rest hparts]
  simp only [hpod, hnode, hlookup]
  rfl

/-- C6 at the test pod `mongodb-1`, scheduled on the node `no-az-label`. -/
theorem availabilityZoneToTarget_zone_label_missing_witness :
    (availabilityZoneToTarget (selectorService 1 testMembers "" "")
      "mongodb-1.mongodb.database.svc.cluster.local").1 =
      ("", "", some (GoError.plain
        ("unable to find AZ well known label 'topology.kubernetes.io/zone' on node "
          ++ "no-az-label"))) :=
  availabilityZoneToTarget_zone_label_missing (selectorService 1 testMembers "" "")
    "mongodb-1.mongodb.database.svc.cluster.local"
    "mongodb-1" "mongodb" "database" ["svc", "cluster", "local"]
    (testPod "mongodb-1" "database" "no-az-label")
    { ObjectMeta := { Name := "no-az-label" } }
    (by decide) (by rfl) (by rfl) (by simp)

/-- C9, as stated, fails on a node whose zone label is present with an empty value:
the resolver tests only that the label is found, and succeeds with the empty zone. -/
theorem availabilityZoneToTarget_empty_zone_counterexample :
    (availabilityZoneToTarget
      (testService (mockMongoClient 1 testMembers none) emptyZoneCluster "" "")
      "mongodb-0.mongodb.database.svc.cluster.local").1 = ("", "database", none) := by
  decide

/-- C9 (amended): for every replica address and cluster, whenever
`availabilityZoneToTarget` succeeds the address has at least 3 segments
`seg0.seg1.seg2...`, the lookup of pod `seg0` in namespace `seg2` and of the node the pod
is scheduled on succeeded, and the returned zone is the value of the
`topology.kubernetes.io/zone` label on that node (a present label, whose value may be
the empty string). -/
theorem availabilityZoneToTarget_zone_is_node_label (s : Service) (replicaHostPath : String)
    (hsucc : (availabilityZoneToTarget s replicaHostPath).1.2.2 = none) :
    ∃ seg0 seg1 seg2 rest pod node,
      stringsSplit replicaHostPath '.' = seg0 :: seg1 :: seg2 :: rest ∧
      s.conf.K8sClient.PodsGet seg2 seg0 = Except.ok pod ∧
      s.conf.K8sClient.NodesGet pod.Spec.NodeName = Except.ok node ∧
      node.ObjectMeta.Labels.lookup azWellKnownLabel =
        some (availabilityZoneToTarget s replicaHostPath).1.1 := by
  by_cases hshort : (stringsSplit replicaHostPath '.').length < 3
  · rw [availabilityZoneToTarget_short_address s replicaHostPath hshort] at hsucc
    exact absurd hsucc (by simp)
  · obtain ⟨seg0, seg1, seg2, rest, hparts⟩ :
        ∃ seg0 seg1 seg2 rest, stringsSplit replicaHostPath '.' = seg0 :: seg1 :: seg2 :: rest := by
      match hm : stringsSplit replicaHostPath '.' with
      | [] => rw [hm] at hshort; simp at hshort
      | [_] => rw [hm] at hshort; simp at hshort
      | [_, _] => rw [hm] at hshort; simp at hshort
      | a :: b :: c :: r => exact ⟨a, b, c, r, rfl⟩
    refine ⟨seg0, seg1, seg2, rest, ?_⟩
    rw [availabilityZoneToTarget_of_segments s replicaHostPath seg0 seg1 seg2 rest hparts]
      at hsucc ⊢
    cases hpod : s.conf.K8sClient.PodsGet seg2 seg0 with
    | error err =>
      simp only [hpod] at hsucc
      split at hsucc <;> simp at hsucc
    | ok pod =>
      cases hnode : s.conf.K8sClient.NodesGet pod.Spec.NodeName with
      | error err =>
        simp only [hpod, hnode] at hsucc
        split at hsucc <;> simp at hsucc
      | ok node =>
        cases hlabel : node.ObjectMeta.Labels.lookup azWellKnownLabel with
        | none =>
          simp only [hpod, hnode, hlabel] at hsucc
          simp at hsucc
        | some az =>
          refine ⟨pod, node, hparts, rfl, hnode, ?_⟩
          simp only [hnode, hlabel]

/-- C9 at end-to-end scenario 3: the zone returned for `mongodb-0` is the label value
of `node1`. -/
theorem availabilityZoneToTarget_zone_is_node_label_witness :
    ∃ seg0 seg1 seg2 rest pod node,
      stringsSplit "mongodb-0.mongodb.database.svc.cluster.local" '.'
        = seg0 :: seg1 :: seg2 :: rest ∧
      testCluster.PodsGet seg2 seg0 = Except.ok pod ∧
      testCluster.NodesGet pod.Spec.NodeName = Except.ok node ∧
      node.ObjectMeta.Labels.lookup azWellKnownLabel = some "eu-west-1a" :=
  availabilityZoneToTarget_zone_is_node_label (selectorService 1 testMembers "" "")
    "mongodb-0.mongodb.database.svc.cluster.local" (by decide)

/-! ## Job construction: the claims -/

/-- The first effect of `createJob` is the submission of the descriptor, whatever the
client answers, and it is the only job creation. -/
theorem createJob_effects (s : Service) (mongoDBHost az ns : String) :
    (createJob s mongoDBHost az ns).2.head? =
        some (Effect.jobsCreate ns (jobDescriptor s mongoDBHost az ns)) ∧
      (createJob s mongoDBHost az ns).2.filter Effect.isJobsCreate =
        [Effect.jobsCreate ns (jobDescriptor s mongoDBHost az ns)] := by
  unfold createJob
  simp only []
  split <;> simp [Effect.isJobsCreate]

/-- C7: for every replica address, zone `az` and namespace `ns`, `createJob` submits one
job descriptor, to namespace `ns`; the descriptor is placed in namespace `ns`; the first
term of its required (`RequiredDuringSchedulingIgnoredDuringExecution`) node selector
holds a match expression with key `topology.kubernetes.io/zone`, operator `In` and
values exactly `[az]`, and one with key `karpenter.sh/nodepool`, operator `In` and
values `["backups"]`; its tolerations hold one with key `mongodb-backups`; and its pod
template carries the annotation `karpenter.sh/do-not-disrupt`. -/
theorem createJob_descriptor_zone_pinned (s : Service) (mongoDBHost az ns : String) :
    ∃ job,
      (createJob s mongoDBHost az ns).2.filter Effect.isJobsCreate = [Effect.jobsCreate ns job] ∧
      job.ObjectMeta.Namespace = ns ∧
      (∃ affinity nodeAffinity required term,
        job.Spec.Template.Spec.Affinity = some affinity ∧
        affinity.NodeAffinity = some nodeAffinity ∧
        nodeAffinity.RequiredDuringSchedulingIgnoredDuringExecution = some required ∧
        required.NodeSelectorTerms.head? = some term ∧
        { Key := "topology.kubernetes.io/zone", Operator := "In", Values := [az] }
          ∈ term.MatchExpressions ∧
        { Key := "karpenter.sh/nodepool", Operator := "In", Values := ["backups"] }
          ∈ term.MatchExpressions) ∧
      (∃ t ∈ job.Spec.Template.Spec.Tolerations, t.Key = "mongodb-backups") ∧
      (job.Spec.Template.ObjectMeta.Annotations.lookup "karpenter.sh/do-not-disrupt").isSome := by
  refine ⟨jobDescriptor s mongoDBHost az ns, (createJob_effects s mongoDBHost az ns).2, rfl,
    ?_, ?_, ?_⟩
  · exact ⟨_, _, _, _, rfl, rfl, rfl, rfl, by simp, by simp⟩
  · exact ⟨_, List.mem_singleton_self _, rfl⟩
  · simp [jobDescriptor, List.lookup]

/-- C10, the code at any input (so also at the test input, zone `eu-west-1a`,
the namespace `database`): the descriptor `createJob` submits declares exactly one volume,
`instance-storage`, and its single container mounts that volume by name at `/backups`;
but the volume's `EmptyDir` source is absent (`nil`), not set. -/
theorem createJob_scratch_volume_source_absent (s : Service) (mongoDBHost az ns : String) :
    ∃ job,
      (createJob s mongoDBHost az ns).2.filter Effect.isJobsCreate = [Effect.jobsCreate ns job] ∧
      job.Spec.Template.Spec.Volumes =
        [{ Name := "instance-storage", VolumeSource := { EmptyDir := none } }] ∧
      job.Spec.Template.Spec.Containers.map (fun c => c.VolumeMounts) =
        [[{ Name := "instance-storage", MountPath := "/backups" }]] :=
  ⟨jobDescriptor s mongoDBHost az ns, (createJob_effects s mongoDBHost az ns).2, rfl, rfl⟩

/-! ## The pipeline: the claims -/

/-- The selector talks to the database only: none of its effects is an orchestration
API call. -/
theorem mongoDBReadReplicaToTarget_effects_no_k8s (s : Service) :
    (mongoDBReadReplicaToTarget s).2.filter Effect.isK8sCall = [] := by
  unfold mongoDBReadReplicaToTarget
  simp only []
  repeat' split
  all_goals simp [replSetGetStatusEffect, Effect.isK8sCall]

/-- The resolver only looks up: none of its effects is a job creation. -/
theorem availabilityZoneToTarget_effects_no_create (s : Service) (replicaHostPath : String) :
    (availabilityZoneToTarget s replicaHostPath).2.filter Effect.isJobsCreate = [] := by
  unfold availabilityZoneToTarget
  simp only []
  repeat' split
  all_goals simp [Effect.isJobsCreate]

/-- A job creation is an orchestration API call. -/
theorem filter_isJobsCreate_of_no_k8s (effects : List Effect)
    (h : effects.filter Effect.isK8sCall = []) :
    effects.filter Effect.isJobsCreate = [] := by
  rw [List.filter_eq_nil_iff] at h ⊢
  intro x hx hc
  apply h x hx
  cases x <;> simp_all [Effect.isJobsCreate, Effect.isK8sCall]

/-- C8: `Run` is fail-fast over the three stages, for every behaviour of the two
clients. If replica selection fails with `e`, `Run` returns the selection-stage error
wrapping `e` and its effects are those of the selection alone, none of them a pod
lookup, node lookup or job creation. If selection succeeds and placement resolution
fails with `e`, `Run` returns the placement-stage error wrapping `e` and none of its
effects is a job creation. And a job creation among the effects of `Run` means that
both earlier stages returned no error. -/
theorem Run_fail_fast (s : Service) :
    (∀ e, (mongoDBReadReplicaToTarget s).1.2 = some e →
      (Run s).1 = some (errorfW "finding which secondary MongoDB replica to target: " e) ∧
      (Run s).1.bind GoError.Unwrap = some e ∧
      (Run s).2 = (mongoDBReadReplicaToTarget s).2 ∧
      (Run s).2.filter Effect.isK8sCall = []) ∧
    (∀ e, (mongoDBReadReplicaToTarget s).1.2 = none →
      (availabilityZoneToTarget s (mongoDBReadReplicaToTarget s).1.1).1.2.2 = some e →
      (Run s).1 = some (errorfW "finding which availabilty zone to target: " e) ∧
      (Run s).1.bind GoError.Unwrap = some e ∧
      (Run s).2.filter Effect.isJobsCreate = []) ∧
    ((Run s).2.filter Effect.isJobsCreate ≠ [] →
      (mongoDBReadReplicaToTarget s).1.2 = none ∧
      (availabilityZoneToTarget s (mongoDBReadReplicaToTarget s).1.1).1.2.2 = none) := by
  have h1 := mongoDBReadReplicaToTarget_effects_no_k8s s
  have h1c := filter_isJobsCreate_of_no_k8s _ h1
  have h2 := availabilityZoneToTarget_effects_no_create s (mongoDBReadReplicaToTarget s).1.1
  refine ⟨?_, ?_, ?_⟩
  · intro e he
    have hrun : Run s =
        (some (errorfW "finding which secondary MongoDB replica to target: " e),
          (mongoDBReadReplicaToTarget s).2) := by
      unfold Run
      simp only [he]
    rw [hrun]
    exact ⟨rfl, rfl, rfl, h1⟩
  · intro e he1 he2
    have hrun : Run s =
        (some (errorfW "finding which availabilty zone to target: " e),
          (mongoDBReadReplicaToTarget s).2 ++
            (availabilityZoneToTarget s (mongoDBReadReplicaToTarget s).1.1).2) := by
      unfold Run
      simp only [he1, he2]
    rw [hrun]
    refine ⟨rfl, rfl, ?_⟩
    rw [List.filter_append, h1c, h2]
    rfl
  · intro hcreate
    cases he1 : (mongoDBReadReplicaToTarget s).1.2 with
    | some e =>
      exfalso
      apply hcreate
      unfold Run
      simp only [he1]
      exact h1c
    | none =>
      refine ⟨rfl, ?_⟩
      cases he2 : (availabilityZoneToTarget s (mongoDBReadReplicaToTarget s).1.1).1.2.2 with
      | some e =>
        exfalso
        apply hcreate
        unfold Run
        simp only [he1, he2]
        rw [List.filter_append, h1c, h2]
        rfl
      | none => rfl

/-- C8 at two runs over the test cluster. With success flag 0 the selection fails and
`Run` makes no orchestration call; with `mongodb-1...` excluded the target is
`mongodb-2...`, whose node is missing, the placement fails and `Run` creates no job. -/
theorem Run_fail_fast_witness :
    ((Run (selectorService 0 testMembers "" "")).1 =
        some (errorfW "finding which secondary MongoDB replica to target: "
          (GoError.plain "database operation did not complete succesfully")) ∧
      (Run (selectorService 0 testMembers "" "")).2.filter Effect.isK8sCall = []) ∧
    ((Run (selectorService 1 testMembers "mongodb-1.mongodb.database.svc.cluster.local" "")).1 =
        some (errorfW "finding which availabilty zone to target: "
          (errorfW "unable to find node missing-node: "
            (GoError.status "NotFound" 404 "nodes \"missing-node\" not found"))) ∧
      (Run (selectorService 1 testMembers
        "mongodb-1.mongodb.database.svc.cluster.local" "")).2.filter Effect.isJobsCreate = []) :=
  ⟨⟨((Run_fail_fast (selectorService 0 testMembers "" "")).1 _ (by rfl)).1,
    ((Run_fail_fast (selectorService 0 testMembers "" "")).1 _ (by rfl)).2.2.2⟩,
   ⟨((Run_fail_fast (selectorService 1 testMembers
        "mongodb-1.mongodb.database.svc.cluster.local" "")).2.1 _ (by rfl) (by rfl)).1,
    ((Run_fail_fast (selectorService 1 testMembers
        "mongodb-1.mongodb.database.svc.cluster.local" "")).2.1 _ (by rfl) (by rfl)).2.2⟩⟩

end MongoBackup
